import Mathlib

/-!
Verification of the dependency-version-checker scripts
(`scripts/check_versions.py` and `scripts/check_versions2.py`) of the
MobileDependecyManager repository, as a shallow embedding in Lean 4.

The network is modelled as an oracle (`GithubApi`): a function from the
request coordinates to the decoded payload the script's request helper
would have extracted (or `none` when the request failed in any of the ways
the scripts map to `None`).  Everything downstream of the request helpers
is translated directly from the Python source.

Python string primitives used by the scripts (`lstrip`, `startswith`,
slicing, `in`, `rstrip`, `removesuffix`) are modelled on `List Char`,
matching Python's by-codepoint string semantics.
-/

namespace DepCheck

/-- Models Python `s.lstrip('vV')`: drops ALL leading characters belonging
to the set `{v, V}` (not just a single one). -/
def pyLstripVV (s : String) : String :=
  String.mk (s.toList.dropWhile (fun c => c == 'v' || c == 'V'))

/-- Models Python `s.lower()` for the ASCII branch names the scripts
compare (by-codepoint mapping). -/
def pyLower (s : String) : String :=
  String.mk (s.toList.map Char.toLower)

/-- Models Python `s.startswith(pre)`. -/
def pyStartswith (s pre : String) : Bool :=
  pre.toList.isPrefixOf s.toList

/-- Models Python slicing `s[:n]` (by codepoint, like Python `str`). -/
def pyTakeStr (s : String) (n : Nat) : String :=
  String.mk (s.toList.take n)

/-- Models Python `len(s)` for `str` (number of codepoints). -/
def pyLen (s : String) : Nat :=
  s.toList.length

/-- Substring test on character lists; helper for `pyIn`. -/
def listIsInfixOf (needle : List Char) : List Char → Bool
  | [] => needle.isPrefixOf []
  | c :: rest => needle.isPrefixOf (c :: rest) || listIsInfixOf needle rest

/-- Models Python `needle in hay` for strings (substring containment). -/
def pyIn (needle hay : String) : Bool :=
  listIsInfixOf needle.toList hay.toList

/-- Models Python truthiness of an optional string: `None` and `""` are
falsy, every other string is truthy. -/
def truthy : Option String → Bool
  | some s => !(s == "")
  | none => false

/-- Splits a character list at every occurrence of `sep`, like Python
`s.split(sep)` for a single-character separator. -/
def pySplitChar (sep : Char) : List Char → List (List Char)
  | [] => [[]]
  | c :: rest =>
    let r := pySplitChar sep rest
    if c == sep then [] :: r
    else
      match r with
      | h :: t => (c :: h) :: t
      | [] => [[c]]

/-- Models splitting a string at `/` (the owner/repo segmentation the
URL regexes of both scripts perform). -/
def pySplitSlash (s : String) : List String :=
  (pySplitChar '/' s.toList).map String.mk

/-- Models Python `s.rstrip('/')`: drops all trailing slashes. -/
def pyRstripSlashes (s : String) : String :=
  String.mk ((s.toList.reverse.dropWhile (fun c => c == '/')).reverse)

/-- Models Python `s.removesuffix(suf)` (and the equivalent
`if s.endswith(suf): s = s[:-len(suf)]` idiom of `check_versions.py`). -/
def pyRemovesuffix (s suf : String) : String :=
  if suf.toList.isSuffixOf s.toList then
    String.mk (s.toList.take (s.toList.length - suf.toList.length))
  else s

/-- Oracle for the optional `packaging.version` comparison used by both
scripts inside a `try` block: `semCmp a b = some r` models a successful
`parse_version(a) >= parse_version(b)` call with boolean result `r`, and
`none` models `ImportError` (library absent) or any parse exception; in
either failure case the scripts fall through to their default. -/
def SemCmp : Type :=
  String → String → Option Bool

/-- The semantic-comparison oracle when the `packaging` library is
unavailable (the `ImportError` branch of both scripts). -/
def semUnavailable : SemCmp :=
  fun _ _ => none

/-- Abstract outcome of one HTTP request, enumerating exactly the cases
the request helpers of both scripts distinguish: a 200 response whose body
decodes (carrying the decoded value), a non-200 response returned without
an exception, an `HTTPError`, a `URLError`, a JSON decode failure, a
timeout, and the catch-all `except Exception` case. -/
inductive RequestOutcome (α : Type) where
  | ok (value : α)
  | non200 (status : Nat)
  | httpError (code : Nat)
  | urlError
  | jsonDecodeFailure
  | timedOut
  | otherFailure
  deriving DecidableEq

/-- Models `make_github_request` of `check_versions.py` (lines 116-165):
the decoded JSON is returned only for a 200 response that parses; every
other outcome — non-200 status, `HTTPError`, `URLError`,
`json.JSONDecodeError`, timeout, or any other exception — is caught and
mapped to `None`; nothing is re-raised to the caller. -/
def make_github_request {α : Type} : RequestOutcome α → Option α
  | .ok v => some v
  | .non200 _ => none
  | .httpError _ => none
  | .urlError => none
  | .jsonDecodeFailure => none
  | .timedOut => none
  | .otherFailure => none

/-- Models `make_api_request` of `check_versions2.py` (lines 67-129),
which has the same error-to-`None` mapping as `make_github_request`
(the `is_raw_download` flavour only changes what the `ok` payload is). -/
def make_api_request {α : Type} : RequestOutcome α → Option α
  | .ok v => some v
  | .non200 _ => none
  | .httpError _ => none
  | .urlError => none
  | .jsonDecodeFailure => none
  | .timedOut => none
  | .otherFailure => none

/-- Network oracle for the GitHub API endpoints the scripts consult.
Each field holds the value the corresponding request helper call would
produce after JSON decoding and the script's own field extraction:
`releaseResp owner repo` is `none` when the `releases/latest` request
failed (mapped to `None`), `some none` when it returned a truthy dict
without a `tag_name` key, and `some (some t)` when `tag_name` was `t`
(possibly the empty string).  `tagsResp` is `none` unless the `tags`
request returned a list, in which case it carries each element's optional
`name` field.  `branchResp owner repo branch` is `some sha` when the
branch request returned a dict with `commit.sha = sha`, else `none`. -/
structure GithubApi where
  releaseResp : String → String → Option (Option String)
  tagsResp : String → String → Option (List (Option String))
  branchResp : String → String → String → Option String

/-- Instrumentation tag naming which version-lookup endpoint a lookup
function consulted. -/
inductive Endpoint where
  | releasesLatest
  | tagsList
  deriving DecidableEq

end DepCheck

namespace CheckVersions

open DepCheck

/-- Input record of `check_versions.py` (entries of `IOS_DEPENDENCIES`). -/
structure DepConfig where
  name : String
  url : String
  current : String

/-- Output record appended to `all_results` in `check_versions.py`;
`notes = ""` models the absence of the optional `notes` key. -/
structure DepResult where
  name : String
  url : String
  current : String
  latest : String
  status : String
  notes : String

/-- Models `parse_github_url` of `check_versions.py` (lines 88-113):
strips one `.git` suffix and trailing slashes, then matches
`^(?:https|git)://github\.com/([^/]+)/([^/]+?)(?:\.git)?$`; the
non-greedy repo group together with the optional `.git` group strips one
further `.git` suffix from the repo segment when a nonempty name
precedes it. -/
def parse_github_url (url : String) : Option (String × String) :=
  if url == "" then none
  else
    let u := pyRemovesuffix url ".git"
    let u := pyRstripSlashes u
    let rest? :=
      if pyStartswith u "https://github.com/" then
        some (String.mk (u.toList.drop 19))
      else if pyStartswith u "git://github.com/" then
        some (String.mk (u.toList.drop 17))
      else none
    match rest? with
    | none => none
    | some rest =>
      match pySplitSlash rest with
      | [owner, repo0] =>
        if owner == "" || repo0 == "" then none
        else
          let repo :=
            if decide (4 < repo0.toList.length)
                && ".git".toList.isSuffixOf repo0.toList then
              String.mk (repo0.toList.take (repo0.toList.length - 4))
            else repo0
          some (owner, repo)
      | _ => none

/-- Models `get_latest_release` (lines 168-181): returns the
`tag_name` field (even when empty) iff the response was a truthy dict
containing that key. -/
def get_latest_release (api : GithubApi) (owner repo : String) :
    Option String :=
  match api.releaseResp owner repo with
  | some (some t) => some t
  | _ => none

/-- Models `get_latest_tag` (lines 184-203): returns the first tag's
`name` field when the response is a nonempty list and that field is
truthy, else `None`. -/
def get_latest_tag (api : GithubApi) (owner repo : String) :
    Option String :=
  match api.tagsResp owner repo with
  | some (n :: _) => if truthy n then n else none
  | _ => none

/-- Models the `branches_to_try` list built in `get_latest_commit_sha`
(lines 210-214): the requested branch, followed by the alternate default
branch name when the request was (case-insensitively) `master` or
`main`. -/
def branches_to_try (branch_name : String) : List String :=
  if pyLower branch_name == "master" then [branch_name, "main"]
  else if pyLower branch_name == "main" then [branch_name, "master"]
  else [branch_name]

/-- Loop body of `get_latest_commit_sha` (lines 216-229) over the list of
branch names to try, instrumented with the list of branch names actually
requested: the first branch whose response carries a `commit.sha` yields
`sha[:7]` and stops the loop. -/
def commit_sha_loop (api : GithubApi) (owner repo : String) :
    List String → Option String × List String
  | [] => (none, [])
  | b :: rest =>
    match api.branchResp owner repo b with
    | some sha => (some (pyTakeStr sha 7), [b])
    | none =>
      let r := commit_sha_loop api owner repo rest
      (r.1, b :: r.2)

/-- Models `get_latest_commit_sha` of `check_versions.py` together with
the list of branch names it requested. -/
def get_latest_commit_sha_requests (api : GithubApi)
    (owner repo branch_name : String) : Option String × List String :=
  commit_sha_loop api owner repo (branches_to_try branch_name)

/-- Models `get_latest_commit_sha` of `check_versions.py` (lines
206-229). -/
def get_latest_commit_sha (api : GithubApi)
    (owner repo branch_name : String) : Option String :=
  (get_latest_commit_sha_requests api owner repo branch_name).1

/-- Models `determine_status` of `check_versions.py` (lines 232-263). -/
def determine_status (sem : SemCmp) (current_version : String)
    (latest_version : Option String)
    (is_tracking_branch has_error : Bool) : String :=
  match latest_version with
  | none => "🚨 Error Checking"
  | some latest =>
    if has_error then "🚨 Error Checking"
    else if is_tracking_branch then "ℹ️ Tracks Branch"
    else
      let norm_current := pyLstripVV current_version
      let norm_latest := pyLstripVV latest
      if norm_current == norm_latest then "✅ Up to Date"
      else
        match sem norm_current norm_latest with
        | some true => "✅ Up to Date"
        | _ => "⚠️ Update Available"

/-- Models the inline release-then-tag fallback of
`check_dependency_version` (lines 299-313), instrumented with the
endpoints consulted; result is `(latest_version, notes, has_error)`. -/
def release_then_tag_lookup_log (api : GithubApi) (owner repo : String) :
    (Option String × String × Bool) × List Endpoint :=
  match get_latest_release api owner repo with
  | some rel =>
    ((some rel, "Latest version from releases.", false),
      [Endpoint.releasesLatest])
  | none =>
    match get_latest_tag api owner repo with
    | some tag =>
      ((some tag, "Latest version from tags (no formal release found).",
        false), [Endpoint.releasesLatest, Endpoint.tagsList])
    | none =>
      ((none, "Could not fetch latest release or tag.", true),
        [Endpoint.releasesLatest, Endpoint.tagsList])

/-- The release-then-tag fallback without the instrumentation. -/
def release_then_tag_lookup (api : GithubApi) (owner repo : String) :
    Option String × String × Bool :=
  (release_then_tag_lookup_log api owner repo).1

/-- Models `check_dependency_version` of `check_versions.py`
(lines 266-333).  The dead recovery block at lines 315-318 is unreachable
(`has_error` is already set whenever `latest_version` is `None`) and is
therefore absorbed by the branches below. -/
def check_dependency_version (sem : SemCmp) (api : GithubApi)
    (dc : DepConfig) : DepResult :=
  match parse_github_url dc.url with
  | none =>
    ⟨dc.name, dc.url, dc.current, "Unknown", "🚨 Error Checking",
      "Could not parse GitHub URL"⟩
  | some (owner, repo_name) =>
    let is_tracking :=
      (["master", "main", "develop", "dev", "mainline"] : List String)
        |>.contains (pyLower dc.current)
    if is_tracking then
      match get_latest_commit_sha api owner repo_name dc.current with
      | some sha =>
        ⟨dc.name, dc.url, dc.current, sha,
          determine_status sem dc.current (some sha) true false,
          "Tracking \x27" ++ dc.current ++ "\x27 branch."⟩
      | none =>
        ⟨dc.name, dc.url, dc.current, "Unknown",
          determine_status sem dc.current none true true,
          "Tracking \x27" ++ dc.current
            ++ "\x27 branch. Could not fetch latest commit."⟩
    else
      match release_then_tag_lookup api owner repo_name with
      | (some v, notes, he) =>
        ⟨dc.name, dc.url, dc.current, v,
          determine_status sem dc.current (some v) false he, notes⟩
      | (none, notes, he) =>
        ⟨dc.name, dc.url, dc.current, "Unknown",
          determine_status sem dc.current none false he, notes⟩

/-- Models the accumulation loop of `main` (lines 344-352): one result is
appended per input dependency, in input order. -/
def main_results (sem : SemCmp) (api : GithubApi)
    (deps : List DepConfig) : List DepResult :=
  deps.map (check_dependency_version sem api)

/-- Models the summary counts of `main` (lines 380-383):
`len([r for r in all_results if marker in r.status])`. -/
def count_marker (marker : String) (rs : List DepResult) : Nat :=
  (rs.filter (fun r => pyIn marker r.status)).length

end CheckVersions

namespace CheckVersions2

open DepCheck

/-- The literal status and marker strings of `check_versions2.py` are
mojibake: the source file contains, as actual characters, the MacRoman
misdecoding of the UTF-8 emoji bytes.  They are reproduced here exactly,
via unicode escapes, from the bytes of the source file. -/
def errorCheckingStr : String :=
  "üö® Error Checking"

/-- Status string of line 249 of `check_versions2.py`. -/
def upToDateBranchRevStr : String :=
  "‚úÖ Up to Date (Branch/Revision)"

/-- Status string of line 252 of `check_versions2.py`. -/
def tracksBranchRevStr : String :=
  "‚ÑπÔ∏è Tracks Branch/Revision"

/-- Status string of lines 259 and 264 of `check_versions2.py`. -/
def upToDateStr : String :=
  "‚úÖ Up to Date"

/-- Status string of line 270 of `check_versions2.py`. -/
def updateAvailableStr : String :=
  "‚ö†Ô∏è Update Available"

/-- Structured pin state of one lockfile entry: the optional `version`,
`branch` and `revision` fields of `Package.resolved` pin `state` objects
(`none` models an absent key). -/
structure PinState where
  version : Option String
  branch : Option String
  revision : Option String

/-- One pin record of a v2-schema `Package.resolved` as
`parse_package_resolved` consumes it (`identity`, `location`, `state`);
`none` models an absent key. -/
structure ResolvedPin where
  identity : Option String
  location : Option String
  state : Option PinState

/-- Models `os.path.basename` for the forward-slash paths the script
feeds it: the part after the last `/`. -/
def basename (p : String) : String :=
  ((p.splitOn "/").getLast?).getD p

/-- Models the Python truthiness chain
`state.get("version") or state.get("branch")
   or state.get("revision", "unknown")`
of `parse_package_resolved` (lines 179 and 189). -/
def resolved_version_of (st : PinState) : String :=
  if truthy st.version then st.version.getD ""
  else if truthy st.branch then st.branch.getD ""
  else st.revision.getD "unknown"

/-- Models `bool(state.get("branch") or state.get("revision"))`
of `parse_package_resolved` (lines 180 and 190). -/
def is_branch_or_revision_of (st : PinState) : Bool :=
  truthy st.branch || truthy st.revision

/-- Dependency record produced by `parse_package_resolved` and consumed
by the main loop of `check_versions2.py`. -/
structure Dep2 where
  name : String
  url : String
  resolved_version : String
  is_branch_or_revision : Bool

/-- One iteration of the pin loop of `parse_package_resolved` for the v2
schema (lines 184-191): pins lacking a `location` or `state` key are
skipped; the name is `identity` when present, else the basename of the
location with one `.git` suffix removed. -/
def pin_entry (pin : ResolvedPin) : Option Dep2 :=
  match pin.location, pin.state with
  | some loc, some st =>
    some ⟨(pin.identity).getD (basename (pyRemovesuffix loc ".git")),
      loc, resolved_version_of st, is_branch_or_revision_of st⟩
  | _, _ => none

/-- Models `parse_package_resolved` of `check_versions2.py` restricted to
the v2-schema pin list (lines 182-191); the v1 schema differs only in the
names of the outer keys and of the url field, not in the `state`
handling. -/
def parse_package_resolved (pins : List ResolvedPin) : List Dep2 :=
  pins.filterMap pin_entry

/-- Models `parse_github_url_to_owner_repo` of `check_versions2.py`
(lines 47-65): strips one `.git` suffix and trailing slashes, then
matches `^(?:https?|git)://github\.com/([^/]+)/([^/]+)$`. -/
def parse_github_url_to_owner_repo (url : String) :
    Option (String × String) :=
  if url == "" then none
  else
    let u := pyRemovesuffix url ".git"
    let u := pyRstripSlashes u
    let rest? :=
      if pyStartswith u "https://github.com/" then
        some (String.mk (u.toList.drop 19))
      else if pyStartswith u "http://github.com/" then
        some (String.mk (u.toList.drop 18))
      else if pyStartswith u "git://github.com/" then
        some (String.mk (u.toList.drop 17))
      else none
    match rest? with
    | none => none
    | some rest =>
      match pySplitSlash rest with
      | [owner, repo] =>
        if owner == "" || repo == "" then none
        else some (owner, repo)
      | _ => none

/-- Models `get_latest_github_version` of `check_versions2.py`
(lines 205-229), instrumented with the endpoints consulted; the result
triple is `(latest_version, type_of_version, is_error)`. -/
def get_latest_github_version_log (api : GithubApi)
    (owner repo : String) :
    (Option String × String × Bool) × List Endpoint :=
  match api.releaseResp owner repo with
  | some (some t) => ((some t, "release", false), [Endpoint.releasesLatest])
  | _ =>
    match api.tagsResp owner repo with
    | some (n :: _) =>
      if truthy n then
        ((n, "tag", false), [Endpoint.releasesLatest, Endpoint.tagsList])
      else
        ((none, "unknown", true),
          [Endpoint.releasesLatest, Endpoint.tagsList])
    | _ =>
      ((none, "unknown", true),
        [Endpoint.releasesLatest, Endpoint.tagsList])

/-- `get_latest_github_version` without the instrumentation. -/
def get_latest_github_version (api : GithubApi) (owner repo : String) :
    Option String × String × Bool :=
  (get_latest_github_version_log api owner repo).1

/-- Models `get_latest_commit_sha` of `check_versions2.py`
(lines 231-240), instrumented with the branch names requested: exactly
one request, no retry against an alternate branch name. -/
def get_latest_commit_sha_requests (api : GithubApi)
    (owner repo branch_name : String) : Option String × List String :=
  match api.branchResp owner repo branch_name with
  | some sha => (some (pyTakeStr sha 7), [branch_name])
  | none => (none, [branch_name])

/-- Models `get_latest_commit_sha` of `check_versions2.py`. -/
def get_latest_commit_sha (api : GithubApi)
    (owner repo branch_name : String) : Option String :=
  (get_latest_commit_sha_requests api owner repo branch_name).1

/-- Models `determine_status_for_resolved` of `check_versions2.py`
(lines 242-270). -/
def determine_status_for_resolved (sem : SemCmp)
    (resolved_version : String) (latest_version : Option String)
    (is_branch_or_revision has_error : Bool) : String :=
  match latest_version with
  | none => errorCheckingStr
  | some latest =>
    if has_error then errorCheckingStr
    else if is_branch_or_revision then
      if decide (7 ≤ pyLen resolved_version) && decide (7 ≤ pyLen latest)
          && pyStartswith resolved_version
              (pyTakeStr latest (pyLen resolved_version)) then
        upToDateBranchRevStr
      else tracksBranchRevStr
    else
      let norm_resolved := pyLstripVV resolved_version
      let norm_latest := pyLstripVV latest
      if norm_resolved == norm_latest then upToDateStr
      else
        match sem norm_resolved norm_latest with
        | some true => upToDateStr
        | _ => updateAvailableStr

/-- Models `re.match(r'^\d+\.\d+', s)` as used at line 334 (`\d`
modelled as the ASCII digits the script's version strings use). -/
def matchesNumDotNum (s : String) : Bool :=
  let l := s.toList
  let ds := l.takeWhile Char.isDigit
  let rest := l.dropWhile Char.isDigit
  !ds.isEmpty
    && (match rest with
        | '.' :: r2 => !(r2.takeWhile Char.isDigit).isEmpty
        | _ => false)

/-- Models `s[0].isdigit()` (line 343); only evaluated by the script on
nonempty strings, where the two agree. -/
def firstCharIsDigit (s : String) : Bool :=
  match s.toList with
  | [] => false
  | c :: _ => c.isDigit

/-- Output record appended to `final_results` in `check_versions2.py`. -/
structure Result2 where
  name : String
  source_url : String
  resolved_version : String
  is_branch_or_revision : Bool
  latest_available_version : String
  status : String
  notes : String

/-- Models one iteration of the dependency loop of `main` in
`check_versions2.py` (lines 319-378).  The interim
`status = "... Error Parsing URL"` assignment at line 330 is dead: line
364 unconditionally recomputes the status via
`determine_status_for_resolved`.  The built notes carry no surrounding
whitespace, so the final `notes.strip()` is the identity. -/
def check_resolved_dep (sem : SemCmp) (api : GithubApi) (dep : Dep2) :
    Result2 :=
  match parse_github_url_to_owner_repo dep.url with
  | none =>
    ⟨dep.name, dep.url, dep.resolved_version, dep.is_branch_or_revision,
      "Unknown",
      determine_status_for_resolved sem dep.resolved_version none
        dep.is_branch_or_revision true,
      "Could not parse dependency GitHub URL."⟩
  | some (dep_owner, dep_repo) =>
    if dep.is_branch_or_revision
        && !(pyStartswith dep.resolved_version "v")
        && !(pyStartswith dep.resolved_version "V")
        && !(matchesNumDotNum dep.resolved_version) then
      if decide (pyLen dep.resolved_version < 10)
          && !(pyStartswith dep.resolved_version "v")
          && !(firstCharIsDigit dep.resolved_version) then
        match get_latest_commit_sha api dep_owner dep_repo
            dep.resolved_version with
        | some sha =>
          ⟨dep.name, dep.url, dep.resolved_version,
            dep.is_branch_or_revision, sha,
            determine_status_for_resolved sem dep.resolved_version
              (some sha) dep.is_branch_or_revision false,
            "Latest commit on branch \x27" ++ dep.resolved_version
              ++ "\x27."⟩
        | none =>
          ⟨dep.name, dep.url, dep.resolved_version,
            dep.is_branch_or_revision, "Unknown",
            determine_status_for_resolved sem dep.resolved_version none
              dep.is_branch_or_revision true,
            "Could not fetch latest commit for branch \x27"
              ++ dep.resolved_version ++ "\x27."⟩
      else
        ⟨dep.name, dep.url, dep.resolved_version,
          dep.is_branch_or_revision, dep.resolved_version,
          determine_status_for_resolved sem dep.resolved_version
            (some dep.resolved_version) dep.is_branch_or_revision false,
          "Pinned to specific commit."⟩
    else
      match get_latest_github_version api dep_owner dep_repo with
      | (latest?, version_type, err) =>
        if truthy latest? then
          ⟨dep.name, dep.url, dep.resolved_version,
            dep.is_branch_or_revision, latest?.getD "",
            determine_status_for_resolved sem dep.resolved_version
              latest? dep.is_branch_or_revision err,
            "Latest from GitHub " ++ version_type ++ "."⟩
        else if !err then
          ⟨dep.name, dep.url, dep.resolved_version,
            dep.is_branch_or_revision, "Unknown",
            determine_status_for_resolved sem dep.resolved_version
              latest? dep.is_branch_or_revision true,
            "No releases or tags found on GitHub."⟩
        else
          ⟨dep.name, dep.url, dep.resolved_version,
            dep.is_branch_or_revision, "Unknown",
            determine_status_for_resolved sem dep.resolved_version
              latest? dep.is_branch_or_revision err,
            "Error fetching latest version from GitHub."⟩

/-- Models the accumulation loop of `main` in `check_versions2.py`
(lines 318-378): one result appended per parsed dependency, in order. -/
def main_results2 (sem : SemCmp) (api : GithubApi)
    (deps : List Dep2) : List Result2 :=
  deps.map (check_resolved_dep sem api)

/-- Models the summary counts of `main` in `check_versions2.py`
(lines 402-405). -/
def count_marker2 (marker : String) (rs : List Result2) : Nat :=
  (rs.filter (fun r => pyIn marker r.status)).length

end CheckVersions2

namespace DepCheck

/-- A concrete oracle on which every request fails (used by witnesses). -/
def apiEmpty : GithubApi :=
  ⟨fun _ _ => none, fun _ _ => none, fun _ _ _ => none⟩

/-- A concrete oracle whose `releases/latest` endpoint answers with tag
name `2.0.0` (used by witnesses). -/
def apiRelease : GithubApi :=
  ⟨fun _ _ => some (some "2.0.0"), fun _ _ => none, fun _ _ _ => none⟩

/-- A concrete oracle whose branch endpoint answers with a full 40-char
commit sha (used by witnesses). -/
def apiSha : GithubApi :=
  ⟨fun _ _ => none, fun _ _ => none,
    fun _ _ _ => some "0123456789abcdef0123456789abcdef01234567"⟩

/-- The condition `resolved.startswith(latest[:len(resolved)])` holds iff
one operand is a prefix of the other. -/
theorem take_isPrefixOf_iff (a b : List Char) :
    (b.take a.length).isPrefixOf a = true ↔ (a <+: b ∨ b <+: a) := by
  rw [List.isPrefixOf_iff_prefix]
  constructor
  · intro h
    rcases Nat.le_total a.length b.length with hle | hle
    · left
      have hlen : (b.take a.length).length = a.length := by
        simp [List.length_take, Nat.min_eq_left hle]
      have heq : b.take a.length = a := h.eq_of_length hlen
      rw [List.prefix_iff_eq_take]
      exact heq.symm
    · right
      rwa [List.take_of_length_le hle] at h
  · intro h
    rcases h with h | h
    · have heq : a = b.take a.length := List.prefix_iff_eq_take.mp h
      rw [← heq]
    · rw [List.take_of_length_le h.length_le]
      exact h

/-- A four-way partition: when every element satisfies exactly one of the
four predicates, the four filter counts sum to the list length. -/
theorem filter_four_partition {α : Type} (f1 f2 f3 f4 : α → Bool) :
    ∀ l : List α,
      (∀ x ∈ l,
        (f1 x).toNat + (f2 x).toNat + (f3 x).toNat + (f4 x).toNat = 1) →
      (l.filter f1).length + (l.filter f2).length + (l.filter f3).length
        + (l.filter f4).length = l.length
  | [], _ => by simp
  | x :: l, h => by
    have hx := h x (List.mem_cons_self x l)
    have ih := filter_four_partition f1 f2 f3 f4 l
      (fun y hy => h y (List.mem_cons_of_mem x hy))
    simp only [List.filter_cons, List.length_cons]
    cases h1 : f1 x <;> cases h2 : f2 x <;> cases h3 : f3 x <;>
      cases h4 : f4 x <;>
      simp_all <;> omega

/-- A string starting with a nonempty string is nonempty. -/
theorem append_ne_empty_left (a b : String) (h : a ≠ "") :
    a ++ b ≠ "" := by
  intro hab
  apply h
  have hlen : a.length + b.length = 0 := by
    rw [← String.length_append, hab]
    rfl
  have ha : a.length = 0 := by omega
  obtain ⟨l⟩ := a
  cases l with
  | nil => rfl
  | cons c t => simp [String.length, List.length] at ha

/-- The length of a Python-style slice `s[:n]` is the minimum of `n` and
the length of `s`. -/
theorem pyLen_pyTakeStr (s : String) (n : Nat) :
    pyLen (pyTakeStr s n) = min n (pyLen s) := by
  show (s.toList.take n).length = min n s.toList.length
  exact List.length_take ..

/-- Taking the first seven characters yields a string of length at most
seven, and of length exactly seven when the input has at least seven. -/
theorem pyTakeStr_seven_len (full : String) :
    pyLen (pyTakeStr full 7) ≤ 7
    ∧ (7 ≤ pyLen full → pyLen (pyTakeStr full 7) = 7) := by
  rw [pyLen_pyTakeStr]
  omega

end DepCheck

namespace CheckVersions

open DepCheck

/-- Every status `determine_status` returns is one of its four literal
status strings. -/
theorem determine_status_mem (sem : SemCmp) (cur : String)
    (lat : Option String) (it he : Bool) :
    determine_status sem cur lat it he ∈
      (["🚨 Error Checking", "ℹ️ Tracks Branch", "✅ Up to Date",
        "⚠️ Update Available"] : List String) := by
  unfold determine_status
  rcases lat with _ | l
  · simp
  · cases he
    · cases it
      · simp only [Bool.false_eq_true, if_false]
        split
        · simp
        · split <;> simp
      · simp
    · simp

/-- `check_dependency_version` preserves the dependency name. -/
theorem check_dependency_version_name (sem : SemCmp) (api : GithubApi)
    (dc : DepConfig) :
    (check_dependency_version sem api dc).name = dc.name := by
  unfold check_dependency_version
  split
  · rfl
  · dsimp only
    split
    · split <;> rfl
    · split <;> rfl

/-- The notes string of the release-then-tag fallback is nonempty. -/
theorem release_then_tag_lookup_notes_ne (api : GithubApi)
    (owner repo : String) :
    (release_then_tag_lookup api owner repo).2.1 ≠ "" := by
  unfold release_then_tag_lookup release_then_tag_lookup_log
  split
  · show "Latest version from releases." ≠ ""
    decide
  · split
    · show "Latest version from tags (no formal release found)." ≠ ""
      decide
    · show "Could not fetch latest release or tag." ≠ ""
      decide

/-- `check_dependency_version` always attaches a nonempty note. -/
theorem check_dependency_version_notes_ne (sem : SemCmp)
    (api : GithubApi) (dc : DepConfig) :
    (check_dependency_version sem api dc).notes ≠ "" := by
  unfold check_dependency_version
  split
  · show "Could not parse GitHub URL" ≠ ""
    decide
  · rename_i owner repo hparse
    dsimp only
    split
    · split
      · show "Tracking \x27" ++ dc.current ++ "\x27 branch." ≠ ""
        exact append_ne_empty_left _ _
          (append_ne_empty_left _ _ (by decide))
      · show ("Tracking \x27" ++ dc.current
            ++ "\x27 branch. Could not fetch latest commit.") ≠ ""
        exact append_ne_empty_left _ _
          (append_ne_empty_left _ _ (by decide))
    · split
      · rename_i v notes he heq
        show notes ≠ ""
        have h2 := release_then_tag_lookup_notes_ne api owner repo
        rw [heq] at h2
        exact h2
      · rename_i notes he heq
        show notes ≠ ""
        have h2 := release_then_tag_lookup_notes_ne api owner repo
        rw [heq] at h2
        exact h2

/-- Every status `check_dependency_version` attaches is one of the four
literal status strings of `check_versions.py`. -/
theorem check_dependency_version_status_mem (sem : SemCmp)
    (api : GithubApi) (dc : DepConfig) :
    (check_dependency_version sem api dc).status ∈
      (["🚨 Error Checking", "ℹ️ Tracks Branch", "✅ Up to Date",
        "⚠️ Update Available"] : List String) := by
  unfold check_dependency_version
  split
  · simp
  · dsimp only
    split
    · split
      · rename_i sha hsha
        show determine_status sem dc.current (some sha) true false ∈ _
        exact determine_status_mem ..
      · show determine_status sem dc.current none true true ∈ _
        exact determine_status_mem ..
    · split
      · rename_i v notes he heq
        show determine_status sem dc.current (some v) false he ∈ _
        exact determine_status_mem ..
      · rename_i notes he heq
        show determine_status sem dc.current none false he ∈ _
        exact determine_status_mem ..

end CheckVersions

namespace CheckVersions2

open DepCheck

/-- Every status `determine_status_for_resolved` returns is one of its
five literal status strings. -/
theorem determine_status_for_resolved_mem (sem : SemCmp)
    (resolved : String) (lat : Option String) (ib he : Bool) :
    determine_status_for_resolved sem resolved lat ib he ∈
      ([errorCheckingStr, upToDateBranchRevStr, tracksBranchRevStr,
        upToDateStr, updateAvailableStr] : List String) := by
  rcases lat with _ | l
  · simp [determine_status_for_resolved]
  · cases he
    · cases ib
      · by_cases hv : (pyLstripVV resolved == pyLstripVV l) = true
        · simp [determine_status_for_resolved, hv]
        · rcases hs : sem (pyLstripVV resolved) (pyLstripVV l)
            with _ | b
          · simp [determine_status_for_resolved, hv, hs]
          · cases b <;> simp [determine_status_for_resolved, hv, hs]
      · by_cases hc : (decide (7 ≤ pyLen resolved)
            && decide (7 ≤ pyLen l)
            && pyStartswith resolved (pyTakeStr l (pyLen resolved)))
            = true
        · simp [determine_status_for_resolved, hc]
        · simp [determine_status_for_resolved, hc]
    · simp [determine_status_for_resolved]

/-- `check_resolved_dep` preserves the dependency name. -/
theorem check_resolved_dep_name (sem : SemCmp) (api : GithubApi)
    (dep : Dep2) :
    (check_resolved_dep sem api dep).name = dep.name := by
  unfold check_resolved_dep
  repeat' split
  all_goals rfl

/-- `check_resolved_dep` always attaches a nonempty note. -/
theorem check_resolved_dep_notes_ne (sem : SemCmp) (api : GithubApi)
    (dep : Dep2) :
    (check_resolved_dep sem api dep).notes ≠ "" := by
  unfold check_resolved_dep
  split
  · show "Could not parse dependency GitHub URL." ≠ ""
    decide
  · rename_i owner repo hparse
    dsimp only
    split
    · split
      · split
        · show ("Latest commit on branch \x27" ++ dep.resolved_version
              ++ "\x27.") ≠ ""
          exact append_ne_empty_left _ _
            (append_ne_empty_left _ _ (by decide))
        · show ("Could not fetch latest commit for branch \x27"
              ++ dep.resolved_version ++ "\x27.") ≠ ""
          exact append_ne_empty_left _ _
            (append_ne_empty_left _ _ (by decide))
      · show "Pinned to specific commit." ≠ ""
        decide
    · split
      · show ("Latest from GitHub "
            ++ (get_latest_github_version api owner repo).2.1
            ++ ".") ≠ ""
        exact append_ne_empty_left _ _
          (append_ne_empty_left _ _ (by decide))
      · split
        · show "No releases or tags found on GitHub." ≠ ""
          decide
        · show "Error fetching latest version from GitHub." ≠ ""
          decide

/-- Every status `check_resolved_dep` attaches is one of the five
literal status strings of `check_versions2.py`. -/
theorem check_resolved_dep_status_mem (sem : SemCmp) (api : GithubApi)
    (dep : Dep2) :
    (check_resolved_dep sem api dep).status ∈
      ([errorCheckingStr, upToDateBranchRevStr, tracksBranchRevStr,
        upToDateStr, updateAvailableStr] : List String) := by
  unfold check_resolved_dep
  split
  · show determine_status_for_resolved sem dep.resolved_version none
        dep.is_branch_or_revision true ∈ _
    exact determine_status_for_resolved_mem ..
  · rename_i owner repo hparse
    dsimp only
    split
    · split
      · split
        · rename_i sha hsha
          show determine_status_for_resolved sem dep.resolved_version
              (some sha) dep.is_branch_or_revision false ∈ _
          exact determine_status_for_resolved_mem ..
        · show determine_status_for_resolved sem dep.resolved_version
              none dep.is_branch_or_revision true ∈ _
          exact determine_status_for_resolved_mem ..
      · show determine_status_for_resolved sem dep.resolved_version
            (some dep.resolved_version) dep.is_branch_or_revision
            false ∈ _
        exact determine_status_for_resolved_mem ..
    · split
      · show determine_status_for_resolved sem dep.resolved_version
            (get_latest_github_version api owner repo).1
            dep.is_branch_or_revision
            (get_latest_github_version api owner repo).2.2 ∈ _
        exact determine_status_for_resolved_mem ..
      · split
        · show determine_status_for_resolved sem dep.resolved_version
              (get_latest_github_version api owner repo).1
              dep.is_branch_or_revision true ∈ _
          exact determine_status_for_resolved_mem ..
        · show determine_status_for_resolved sem dep.resolved_version
              (get_latest_github_version api owner repo).1
              dep.is_branch_or_revision
              (get_latest_github_version api owner repo).2.2 ∈ _
          exact determine_status_for_resolved_mem ..

end CheckVersions2

open DepCheck CheckVersions CheckVersions2 in
/-- C3 counterexample: the claim asserts that only a single leading
`v`/`V` is stripped, so that `vv1.2.0` and `1.2.0` do not normalize to
the same string.  In the code, `lstrip('vV')` strips ALL leading
`v`/`V` characters: the two operands normalize identically and both
comparators report them equal (Up to Date). -/
theorem claim_C3_counterexample :
    pyLstripVV "vv1.2.0" = pyLstripVV "1.2.0"
    ∧ determine_status semUnavailable "vv1.2.0" (some "1.2.0")
        false false = "✅ Up to Date"
    ∧ determine_status_for_resolved semUnavailable "vv1.2.0"
        (some "1.2.0") false false = upToDateStr :=
  ⟨rfl, rfl, rfl⟩

open DepCheck CheckVersions CheckVersions2 in
/-- C3 (amended): the version comparator strips ALL leading `v`/`V`
characters from each operand before comparing (embedded occurrences are
left in place), so `vv1.2.0` and `1.2.0` DO normalize to the same string
and compare as equal in both scripts. -/
theorem claim_C3_vstrip_all_leading :
    (∀ s : String,
        pyLstripVV (String.mk ('v' :: s.toList)) = pyLstripVV s
        ∧ pyLstripVV (String.mk ('V' :: s.toList)) = pyLstripVV s)
    ∧ (∀ (s : String) (c : Char) (t : List Char),
        s.toList = c :: t → c ≠ 'v' → c ≠ 'V' → pyLstripVV s = s)
    ∧ pyLstripVV "vv1.2.0" = "1.2.0"
    ∧ pyLstripVV "x1.v2" = "x1.v2"
    ∧ ∀ sem : SemCmp,
        determine_status sem "vv1.2.0" (some "1.2.0") false false
          = "✅ Up to Date"
        ∧ determine_status_for_resolved sem "vv1.2.0" (some "1.2.0")
            false false = upToDateStr := by
  refine ⟨fun s => ⟨?_, ?_⟩, ?_, rfl, rfl, fun sem => ⟨rfl, rfl⟩⟩
  · simp [pyLstripVV, List.dropWhile_cons]
  · simp [pyLstripVV, List.dropWhile_cons]
  · intro s c t hs hv hV
    obtain ⟨lst⟩ := s
    have hlst : lst = c :: t := hs
    subst hlst
    have hpred : (c == 'v' || c == 'V') = false := by
      simp [hv, hV]
    simp [pyLstripVV, List.dropWhile_cons, hpred]

open DepCheck CheckVersions CheckVersions2 in
/-- C3 amended witness: concrete applications of the amended claim. -/
theorem claim_C3_amended_witness :
    pyLstripVV "main" = "main"
    ∧ pyLstripVV (String.mk ('v' :: "1.0".toList)) = pyLstripVV "1.0" :=
  ⟨claim_C3_vstrip_all_leading.2.1 "main" 'm' ['a', 'i', 'n'] rfl
      (by decide) (by decide),
    (claim_C3_vstrip_all_leading.1 "1.0").1⟩

open DepCheck CheckVersions CheckVersions2 in
/-- C6: two version strings that are exactly equal after `v`-stripping —
in particular any string compared with itself — are reported Up to Date
by both scripts, and the result does not depend on the semantic-version
comparison oracle (the equality test short-circuits before the optional
`packaging` comparison runs). -/
theorem claim_C6_equality_short_circuit :
    ∀ (sem sem2 : SemCmp) (cur lat x : String),
      (pyLstripVV cur = pyLstripVV lat →
        determine_status sem cur (some lat) false false
            = "✅ Up to Date"
        ∧ determine_status_for_resolved sem cur (some lat) false false
            = upToDateStr
        ∧ determine_status sem cur (some lat) false false
            = determine_status sem2 cur (some lat) false false
        ∧ determine_status_for_resolved sem cur (some lat) false false
            = determine_status_for_resolved sem2 cur (some lat) false
                false)
      ∧ determine_status sem x (some x) false false = "✅ Up to Date"
      ∧ determine_status_for_resolved sem x (some x) false false
          = upToDateStr := by
  intro sem sem2 cur lat x
  refine ⟨fun h => ?_, ?_, ?_⟩
  · have hb : (pyLstripVV cur == pyLstripVV lat) = true := by
      simp [h]
    refine ⟨?_, ?_, ?_, ?_⟩ <;>
      simp [determine_status, determine_status_for_resolved, hb]
  · simp [determine_status]
  · simp [determine_status_for_resolved]

open DepCheck CheckVersions CheckVersions2 in
/-- C6 witness: concrete applications, including a non-semver operand
(`abc!`) compared with itself. -/
theorem claim_C6_witness :
    determine_status semUnavailable "v1.0" (some "1.0") false false
        = "✅ Up to Date"
    ∧ determine_status semUnavailable "abc!" (some "abc!") false false
        = "✅ Up to Date" :=
  ⟨((claim_C6_equality_short_circuit semUnavailable semUnavailable
      "v1.0" "1.0" "x").1 (by decide)).1,
    (claim_C6_equality_short_circuit semUnavailable semUnavailable
      "a" "b" "abc!").2.1⟩

open DepCheck CheckVersions2 in
/-- C2 counterexample: the claim asserts that a prefix relation between a
declared revision pin and the obtained sha yields UpToDate, and that the
no-prefix case yields a PinnedToRevision status distinct from
TracksBranch.  In the code, a declared pin shorter than 7 characters is
never reported UpToDate even when it is a prefix of the latest sha, and
the no-prefix case returns the very same `Tracks Branch/Revision` string
that branch pins receive — no distinct status exists. -/
theorem claim_C2_counterexample :
    pyStartswith "abc1234" "abc" = true
    ∧ determine_status_for_resolved semUnavailable "abc"
        (some "abc1234") true false = tracksBranchRevStr
    ∧ determine_status_for_resolved semUnavailable "aaaaaaaa"
        (some "bbbbbbb1") true false
      = determine_status_for_resolved semUnavailable "main"
          (some "abc1234") true false
    ∧ determine_status_for_resolved semUnavailable "main"
        (some "abc1234") true false = tracksBranchRevStr :=
  ⟨rfl, rfl, rfl, rfl⟩

open DepCheck CheckVersions2 in
/-- C2 (amended): for a branch-or-revision pin whose lookup obtained a
value, the status is the revision-flavoured UpToDate exactly when both
the declared pin and the latest value are at least 7 characters long and
one is a prefix of the other; in every other case the status is the
single `Tracks Branch/Revision` string — the same status branch pins
receive, with no distinct PinnedToRevision status. -/
theorem claim_C2_branch_rev_prefix_rule :
    ∀ (sem : SemCmp) (resolved latest : String),
      (determine_status_for_resolved sem resolved (some latest) true
          false = upToDateBranchRevStr
        ↔ 7 ≤ pyLen resolved ∧ 7 ≤ pyLen latest
            ∧ (resolved.toList <+: latest.toList
                ∨ latest.toList <+: resolved.toList))
      ∧ (determine_status_for_resolved sem resolved (some latest) true
            false ≠ upToDateBranchRevStr →
          determine_status_for_resolved sem resolved (some latest) true
            false = tracksBranchRevStr)
      ∧ upToDateBranchRevStr ≠ tracksBranchRevStr := by
  intro sem resolved latest
  have hcond : (decide (7 ≤ pyLen resolved) && decide (7 ≤ pyLen latest)
      && pyStartswith resolved (pyTakeStr latest (pyLen resolved)))
        = true
      ↔ (7 ≤ pyLen resolved ∧ 7 ≤ pyLen latest
          ∧ (resolved.toList <+: latest.toList
              ∨ latest.toList <+: resolved.toList)) := by
    have hps : pyStartswith resolved (pyTakeStr latest (pyLen resolved))
        = true
        ↔ (resolved.toList <+: latest.toList
            ∨ latest.toList <+: resolved.toList) := by
      show ((latest.toList.take resolved.toList.length).isPrefixOf
          resolved.toList = true) ↔ _
      exact take_isPrefixOf_iff resolved.toList latest.toList
    rw [Bool.and_eq_true, Bool.and_eq_true, decide_eq_true_iff,
      decide_eq_true_iff, hps]
    tauto
  by_cases hc : (decide (7 ≤ pyLen resolved)
      && decide (7 ≤ pyLen latest)
      && pyStartswith resolved (pyTakeStr latest (pyLen resolved)))
      = true
  · have hval : determine_status_for_resolved sem resolved (some latest)
        true false = upToDateBranchRevStr := by
      simp [determine_status_for_resolved, hc]
    exact ⟨⟨fun _ => hcond.mp hc, fun _ => hval⟩,
      fun hne => absurd hval hne, by decide⟩
  · have hval : determine_status_for_resolved sem resolved (some latest)
        true false = tracksBranchRevStr := by
      simp [determine_status_for_resolved, hc]
    refine ⟨⟨fun h => ?_, fun h => absurd (hcond.mpr h) hc⟩,
      fun _ => hval, by decide⟩
    rw [hval] at h
    exact absurd h.symm (by decide)

open DepCheck CheckVersions2 in
/-- C2 amended witness: a 7-character pin that is a prefix of the latest
sha is UpToDate; two unrelated 8-character shas yield the
`Tracks Branch/Revision` status. -/
theorem claim_C2_amended_witness :
    determine_status_for_resolved semUnavailable "abcdef1"
        (some "abcdef1234567") true false = upToDateBranchRevStr
    ∧ determine_status_for_resolved semUnavailable "aaaaaaaa"
        (some "bbbbbbb1") true false = tracksBranchRevStr :=
  ⟨(claim_C2_branch_rev_prefix_rule semUnavailable "abcdef1"
      "abcdef1234567").1.mpr ⟨by decide, by decide, Or.inl (by decide)⟩,
    (claim_C2_branch_rev_prefix_rule semUnavailable "aaaaaaaa"
      "bbbbbbb1").2.1 (by decide)⟩

open DepCheck CheckVersions2 in
/-- C5 counterexample: the claim asserts that a lockfile state containing
a `version` field is classified Version and compared as a version
regardless of any other fields present.  In the code, a state with both
`version` and `branch` fields takes the version string as its resolved
value but sets the branch-or-revision flag, so it is routed through the
branch/revision status logic: even with the latest value equal to the
declared version it is reported `Tracks Branch/Revision`, not Up to
Date. -/
theorem claim_C5_counterexample :
    (PinState.mk (some "1.0.0") (some "main") none).version
        = some "1.0.0"
    ∧ resolved_version_of (PinState.mk (some "1.0.0") (some "main") none)
        = "1.0.0"
    ∧ is_branch_or_revision_of
        (PinState.mk (some "1.0.0") (some "main") none) = true
    ∧ determine_status_for_resolved semUnavailable "1.0.0"
        (some "1.0.0")
        (is_branch_or_revision_of
          (PinState.mk (some "1.0.0") (some "main") none)) false
      = tracksBranchRevStr
    ∧ tracksBranchRevStr ≠ upToDateStr :=
  ⟨rfl, rfl, rfl, rfl, by decide⟩

open DepCheck CheckVersions2 in
/-- C5 (amended): the resolved value of a structured lockfile pin state
follows the truthiness precedence version, else branch, else revision,
else the literal `unknown`; independently, the pin is flagged
branch-or-revision exactly when a branch or revision field is non-empty,
even when a version field is also present — such a pin is not compared
as a version. -/
theorem claim_C5_state_classification :
    ∀ st : PinState,
      (truthy st.version = true →
        resolved_version_of st = st.version.getD "")
      ∧ (truthy st.version = false → truthy st.branch = true →
        resolved_version_of st = st.branch.getD "")
      ∧ (truthy st.version = false → truthy st.branch = false →
        resolved_version_of st = st.revision.getD "unknown")
      ∧ is_branch_or_revision_of st
          = (truthy st.branch || truthy st.revision)
      ∧ ∀ (idn : Option String) (loc : String),
          pin_entry ⟨idn, some loc, some st⟩
            = some ⟨idn.getD (basename (pyRemovesuffix loc ".git")),
                loc, resolved_version_of st,
                is_branch_or_revision_of st⟩ := by
  intro st
  refine ⟨?_, ?_, ?_, rfl, fun idn loc => rfl⟩
  · intro h
    simp [resolved_version_of, h]
  · intro h1 h2
    simp [resolved_version_of, h1, h2]
  · intro h1 h2
    simp [resolved_version_of, h1, h2]

open DepCheck CheckVersions2 in
/-- C5 amended witness: concrete applications of the amended
classification rule. -/
theorem claim_C5_amended_witness :
    resolved_version_of (PinState.mk (some "1.0.0") (some "main") none)
        = (some "1.0.0").getD ""
    ∧ resolved_version_of (PinState.mk none (some "main") none)
        = (some "main").getD ""
    ∧ resolved_version_of (PinState.mk none none none)
        = Option.getD none "unknown" :=
  ⟨(claim_C5_state_classification
      (PinState.mk (some "1.0.0") (some "main") none)).1 (by decide),
    (claim_C5_state_classification
      (PinState.mk none (some "main") none)).2.1 (by decide) (by decide),
    (claim_C5_state_classification
      (PinState.mk none none none)).2.2.1 (by decide) (by decide)⟩

open DepCheck CheckVersions CheckVersions2 in
/-- C4: for version-kind pins both scripts query the latest formal
release first; when that lookup succeeds its `tag_name` is returned
as-is and the tags endpoint is never consulted; only when the release
lookup yields nothing is the tags list consulted. -/
theorem claim_C4_release_before_tags :
    ∀ (api : GithubApi) (owner repo : String),
      (∀ t, api.releaseResp owner repo = some (some t) →
        release_then_tag_lookup_log api owner repo
          = ((some t, "Latest version from releases.", false),
              [Endpoint.releasesLatest])
        ∧ get_latest_github_version_log api owner repo
          = ((some t, "release", false), [Endpoint.releasesLatest]))
      ∧ (get_latest_release api owner repo = none →
        (release_then_tag_lookup_log api owner repo).2
          = [Endpoint.releasesLatest, Endpoint.tagsList]
        ∧ (release_then_tag_lookup api owner repo).1
          = get_latest_tag api owner repo)
      ∧ ((∀ t, api.releaseResp owner repo ≠ some (some t)) →
        (get_latest_github_version_log api owner repo).2
          = [Endpoint.releasesLatest, Endpoint.tagsList]) := by
  intro api owner repo
  refine ⟨fun t h => ⟨?_, ?_⟩, fun h => ⟨?_, ?_⟩, fun h => ?_⟩
  · simp [release_then_tag_lookup_log, get_latest_release, h]
  · simp [get_latest_github_version_log, h]
  · simp only [release_then_tag_lookup_log, h]
    split <;> rfl
  · simp only [release_then_tag_lookup, release_then_tag_lookup_log, h]
    rcases ht : get_latest_tag api owner repo with _ | tg <;> simp [ht]
  · unfold get_latest_github_version_log
    split
    · rename_i t heq
      exact absurd heq (h t)
    · split
      · split <;> rfl
      · rfl

open DepCheck CheckVersions CheckVersions2 in
/-- C4 witness: with a release available, the value is returned as-is and
only the release endpoint is consulted; with nothing available, both
endpoints are consulted in order. -/
theorem claim_C4_witness :
    release_then_tag_lookup_log apiRelease "o" "r"
      = ((some "2.0.0", "Latest version from releases.", false),
          [Endpoint.releasesLatest])
    ∧ get_latest_github_version_log apiRelease "o" "r"
      = ((some "2.0.0", "release", false), [Endpoint.releasesLatest])
    ∧ (release_then_tag_lookup_log apiEmpty "o" "r").2
      = [Endpoint.releasesLatest, Endpoint.tagsList] :=
  ⟨((claim_C4_release_before_tags apiRelease "o" "r").1 "2.0.0" rfl).1,
    ((claim_C4_release_before_tags apiRelease "o" "r").1 "2.0.0" rfl).2,
    ((claim_C4_release_before_tags apiEmpty "o" "r").2.1 rfl).1⟩

open DepCheck in
/-- The branch-lookup request list of `check_versions.py` is either just
the requested branch, or the requested branch followed by the alternate
default-branch name when the request was (case-insensitively) `master`
or `main`. -/
theorem get_latest_commit_sha_requests_cases (api : GithubApi)
    (owner repo b : String) :
    (CheckVersions.get_latest_commit_sha_requests api owner repo b).2
        = [b]
    ∨ ((CheckVersions.get_latest_commit_sha_requests api owner repo
          b).2 = [b, "main"] ∧ pyLower b = "master")
    ∨ ((CheckVersions.get_latest_commit_sha_requests api owner repo
          b).2 = [b, "master"] ∧ pyLower b = "main") := by
  unfold CheckVersions.get_latest_commit_sha_requests
  by_cases h1 : (pyLower b == "master") = true
  · have h1' : pyLower b = "master" := by simpa using h1
    have hb : CheckVersions.branches_to_try b = [b, "main"] := by
      simp [CheckVersions.branches_to_try, h1]
    rw [hb]
    rcases hr1 : api.branchResp owner repo b with _ | sha
    · rcases hr2 : api.branchResp owner repo "main" with _ | sha2 <;>
        · right
          left
          exact ⟨by simp [CheckVersions.commit_sha_loop, hr1, hr2], h1'⟩
    · left
      simp [CheckVersions.commit_sha_loop, hr1]
  · by_cases h2 : (pyLower b == "main") = true
    · have h2' : pyLower b = "main" := by simpa using h2
      have hb : CheckVersions.branches_to_try b = [b, "master"] := by
        simp [CheckVersions.branches_to_try, h1, h2]
      rw [hb]
      rcases hr1 : api.branchResp owner repo b with _ | sha
      · rcases hr2 : api.branchResp owner repo "master" with _ | sha2 <;>
          · right
            right
            exact ⟨by simp [CheckVersions.commit_sha_loop, hr1, hr2],
              h2'⟩
      · left
        simp [CheckVersions.commit_sha_loop, hr1]
    · have hb : CheckVersions.branches_to_try b = [b] := by
        simp [CheckVersions.branches_to_try, h1, h2]
      rw [hb]
      left
      rcases hr1 : api.branchResp owner repo b with _ | sha <;>
        simp [CheckVersions.commit_sha_loop, hr1]

open DepCheck in
/-- C7: a branch lookup queries at most two branch names — the requested
one first, plus at most one retry against the alternate default-branch
name, and that only when the requested name is `master` or `main`
(case-insensitively); any other branch name is requested exactly once.
In `check_versions2.py` exactly one request is made in every case. -/
theorem claim_C7_branch_retry_policy :
    ∀ (api : GithubApi) (owner repo b : String),
      (CheckVersions.get_latest_commit_sha_requests api owner repo
          b).2.length ≤ 2
      ∧ (CheckVersions.get_latest_commit_sha_requests api owner repo
          b).2.head? = some b
      ∧ (∀ q ∈ (CheckVersions.get_latest_commit_sha_requests api owner
            repo b).2,
          q = b ∨ (pyLower b = "master" ∧ q = "main")
            ∨ (pyLower b = "main" ∧ q = "master"))
      ∧ (pyLower b ≠ "master" → pyLower b ≠ "main" →
          (CheckVersions.get_latest_commit_sha_requests api owner repo
            b).2 = [b])
      ∧ (CheckVersions2.get_latest_commit_sha_requests api owner repo
          b).2 = [b] := by
  intro api owner repo b
  have hv2 : (CheckVersions2.get_latest_commit_sha_requests api owner
      repo b).2 = [b] := by
    unfold CheckVersions2.get_latest_commit_sha_requests
    rcases hr : api.branchResp owner repo b with _ | sha <;> simp [hr]
  rcases get_latest_commit_sha_requests_cases api owner repo b with
    h | ⟨h, hm⟩ | ⟨h, hm⟩
  · rw [h]
    refine ⟨by simp, by simp, ?_, fun _ _ => rfl, hv2⟩
    intro q hq
    simp at hq
    exact Or.inl hq
  · rw [h]
    refine ⟨by simp, by simp, ?_, fun hc _ => absurd hm hc, hv2⟩
    intro q hq
    simp at hq
    rcases hq with rfl | rfl
    · exact Or.inl rfl
    · exact Or.inr (Or.inl ⟨hm, rfl⟩)
  · rw [h]
    refine ⟨by simp, by simp, ?_, fun _ hc => absurd hm hc, hv2⟩
    intro q hq
    simp at hq
    rcases hq with rfl | rfl
    · exact Or.inl rfl
    · exact Or.inr (Or.inr ⟨hm, rfl⟩)

open DepCheck in
/-- C7 witness: a branch name other than master/main is requested
exactly once. -/
theorem claim_C7_witness :
    (CheckVersions.get_latest_commit_sha_requests apiEmpty "o" "r"
      "develop").2 = ["develop"] :=
  (claim_C7_branch_retry_policy apiEmpty "o" "r" "develop").2.2.2.1
    (by decide) (by decide)

open DepCheck in
/-- C8: both request helpers return the decoded value only for a
successful outcome; every failing outcome — non-2xx status, transport
error (including timeout), or JSON decode failure — is mapped to `None`
rather than raised, and all failing outcomes are indistinguishable to
the caller (they all produce the same `None`). -/
theorem claim_C8_request_errors_map_to_none :
    ∀ (α : Type) (o o2 : RequestOutcome α) (v : α),
      make_github_request (RequestOutcome.ok v) = some v
      ∧ make_api_request (RequestOutcome.ok v) = some v
      ∧ ((∀ w, o ≠ RequestOutcome.ok w) → make_github_request o = none)
      ∧ ((∀ w, o ≠ RequestOutcome.ok w) → make_api_request o = none)
      ∧ ((∀ w, o ≠ RequestOutcome.ok w) →
          (∀ w, o2 ≠ RequestOutcome.ok w) →
          make_github_request o = make_github_request o2
          ∧ make_api_request o = make_api_request o2) := by
  intro α o o2 v
  have hgh : ∀ o3 : RequestOutcome α,
      (∀ w, o3 ≠ RequestOutcome.ok w) → make_github_request o3 = none := by
    intro o3 h
    cases o3 with
    | ok w => exact absurd rfl (h w)
    | non200 st => rfl
    | httpError code => rfl
    | urlError => rfl
    | jsonDecodeFailure => rfl
    | timedOut => rfl
    | otherFailure => rfl
  have hapi : ∀ o3 : RequestOutcome α,
      (∀ w, o3 ≠ RequestOutcome.ok w) → make_api_request o3 = none := by
    intro o3 h
    cases o3 with
    | ok w => exact absurd rfl (h w)
    | non200 st => rfl
    | httpError code => rfl
    | urlError => rfl
    | jsonDecodeFailure => rfl
    | timedOut => rfl
    | otherFailure => rfl
  exact ⟨rfl, rfl, hgh o, hapi o, fun h1 h2 =>
    ⟨by rw [hgh o h1, hgh o2 h2], by rw [hapi o h1, hapi o2 h2]⟩⟩

open DepCheck in
/-- C8 witness: a URL error and an HTTP 404 both yield `None`, and are
indistinguishable in the returned value. -/
theorem claim_C8_witness :
    make_github_request (RequestOutcome.urlError : RequestOutcome Nat)
        = none
    ∧ make_api_request
        (RequestOutcome.httpError 404 : RequestOutcome Nat) = none
    ∧ make_github_request
          (RequestOutcome.urlError : RequestOutcome Nat)
        = make_github_request
            (RequestOutcome.httpError 404 : RequestOutcome Nat) :=
  ⟨(claim_C8_request_errors_map_to_none Nat RequestOutcome.urlError
      (RequestOutcome.httpError 404) 0).2.2.1
      (fun _ h => RequestOutcome.noConfusion h),
    (claim_C8_request_errors_map_to_none Nat
      (RequestOutcome.httpError 404) RequestOutcome.urlError 0).2.2.2.1
      (fun _ h => RequestOutcome.noConfusion h),
    ((claim_C8_request_errors_map_to_none Nat RequestOutcome.urlError
      (RequestOutcome.httpError 404) 0).2.2.2.2
      (fun _ h => RequestOutcome.noConfusion h)
      (fun _ h => RequestOutcome.noConfusion h)).1⟩

open DepCheck in
/-- When the branch-lookup loop of `check_versions.py` produces a value,
it is the 7-character truncation of a full sha obtained for one of the
attempted branch names. -/
theorem commit_sha_loop_some (api : GithubApi) (owner repo : String) :
    ∀ (bs : List String) (s : String),
      (CheckVersions.commit_sha_loop api owner repo bs).1 = some s →
      ∃ q ∈ bs, ∃ full, api.branchResp owner repo q = some full
        ∧ s = pyTakeStr full 7
  | [], s => by
    intro h
    simp [CheckVersions.commit_sha_loop] at h
  | b :: rest, s => by
    intro h
    unfold CheckVersions.commit_sha_loop at h
    rcases hr : api.branchResp owner repo b with _ | sha
    · rw [hr] at h
      dsimp at h
      obtain ⟨q, hq, full, hfull, hs⟩ :=
        commit_sha_loop_some api owner repo rest s h
      exact ⟨q, List.mem_cons_of_mem _ hq, full, hfull, hs⟩
    · rw [hr] at h
      dsimp at h
      injection h with h2
      exact ⟨b, List.mem_cons_self .., sha, hr, h2.symm⟩

open DepCheck in
/-- C9: every value the branch commit lookup returns, in either script,
is exactly the first 7 characters of the full sha from the API response:
its length is at most 7, and exactly 7 when the full sha has at least 7
characters. -/
theorem claim_C9_short_sha :
    ∀ (api : GithubApi) (owner repo b s : String),
      (CheckVersions.get_latest_commit_sha api owner repo b = some s →
        pyLen s ≤ 7
        ∧ ∃ q ∈ CheckVersions.branches_to_try b, ∃ full,
            api.branchResp owner repo q = some full
            ∧ s = pyTakeStr full 7
            ∧ (7 ≤ pyLen full → pyLen s = 7))
      ∧ (CheckVersions2.get_latest_commit_sha api owner repo b
            = some s →
        pyLen s ≤ 7
        ∧ ∃ full, api.branchResp owner repo b = some full
            ∧ s = pyTakeStr full 7
            ∧ (7 ≤ pyLen full → pyLen s = 7)) := by
  intro api owner repo b s
  constructor
  · intro h
    obtain ⟨q, hq, full, hfull, hs⟩ :=
      commit_sha_loop_some api owner repo
        (CheckVersions.branches_to_try b) s h
    subst hs
    exact ⟨(pyTakeStr_seven_len full).1, q, hq, full, hfull, rfl,
      (pyTakeStr_seven_len full).2⟩
  · intro h
    unfold CheckVersions2.get_latest_commit_sha
      CheckVersions2.get_latest_commit_sha_requests at h
    rcases hr : api.branchResp owner repo b with _ | sha
    · rw [hr] at h
      exact absurd h (by simp)
    · rw [hr] at h
      dsimp at h
      injection h with h2
      subst h2
      exact ⟨(pyTakeStr_seven_len sha).1, sha, rfl, rfl,
        (pyTakeStr_seven_len sha).2⟩

open DepCheck in
/-- C9 witness: with a 40-character sha from the oracle, the lookup
returns its 7-character truncation. -/
theorem claim_C9_witness :
    pyLen "0123456" ≤ 7
    ∧ ∃ q ∈ CheckVersions.branches_to_try "develop", ∃ full,
        apiSha.branchResp "o" "r" q = some full
        ∧ "0123456" = pyTakeStr full 7
        ∧ (7 ≤ pyLen full → pyLen "0123456" = 7) :=
  (claim_C9_short_sha apiSha "o" "r" "develop" "0123456").1 (by decide)

open DepCheck CheckVersions CheckVersions2 in
/-- C1: each script's report contains exactly one entry per input
dependency, in input order (the entry names follow the input names
position by position, so nothing is dropped, duplicated or reordered);
every entry carries a nonempty note, and a dependency whose URL fails to
parse still yields an entry, with the Error Checking status. -/
theorem claim_C1_one_entry_per_dependency :
    ∀ (sem : SemCmp) (api : GithubApi) (deps : List DepConfig)
      (deps2 : List Dep2),
      (main_results sem api deps).map DepResult.name
          = deps.map DepConfig.name
      ∧ (main_results sem api deps).length = deps.length
      ∧ (∀ r ∈ main_results sem api deps, r.notes ≠ "")
      ∧ (∀ dc : DepConfig, parse_github_url dc.url = none →
          (check_dependency_version sem api dc).status
            = "🚨 Error Checking")
      ∧ (main_results2 sem api deps2).map Result2.name
          = deps2.map Dep2.name
      ∧ (main_results2 sem api deps2).length = deps2.length
      ∧ (∀ r ∈ main_results2 sem api deps2, r.notes ≠ "")
      ∧ (∀ d : Dep2, parse_github_url_to_owner_repo d.url = none →
          (check_resolved_dep sem api d).status = errorCheckingStr) := by
  intro sem api deps deps2
  refine ⟨?_, ?_, ?_, ?_, ?_, ?_, ?_, ?_⟩
  · rw [main_results, List.map_map]
    exact List.map_congr_left
      (fun dc _ => check_dependency_version_name sem api dc)
  · simp [main_results]
  · intro r hr
    simp only [main_results, List.mem_map] at hr
    obtain ⟨dc, hdc, rfl⟩ := hr
    exact check_dependency_version_notes_ne sem api dc
  · intro dc h
    simp [check_dependency_version, h]
  · rw [main_results2, List.map_map]
    exact List.map_congr_left
      (fun d _ => check_resolved_dep_name sem api d)
  · simp [main_results2]
  · intro r hr
    simp only [main_results2, List.mem_map] at hr
    obtain ⟨d, hd, rfl⟩ := hr
    exact check_resolved_dep_notes_ne sem api d
  · intro d h
    simp [check_resolved_dep, h, determine_status_for_resolved]

open DepCheck CheckVersions CheckVersions2 in
/-- C1 witness: a dependency with an unparseable URL still yields an
entry, bearing the Error Checking status and a nonempty note. -/
theorem claim_C1_witness :
    (check_dependency_version semUnavailable apiEmpty
        ⟨"Bad", "not-a-url", "1.0"⟩).status = "🚨 Error Checking"
    ∧ (check_dependency_version semUnavailable apiEmpty
        ⟨"Bad", "not-a-url", "1.0"⟩).notes ≠ ""
    ∧ (check_resolved_dep semUnavailable apiEmpty
        ⟨"Bad", "not-a-url", "1.0", false⟩).status = errorCheckingStr :=
  ⟨(claim_C1_one_entry_per_dependency semUnavailable apiEmpty []
      []).2.2.2.1 ⟨"Bad", "not-a-url", "1.0"⟩ (by decide),
    (claim_C1_one_entry_per_dependency semUnavailable apiEmpty
      [⟨"Bad", "not-a-url", "1.0"⟩] []).2.2.1
      (check_dependency_version semUnavailable apiEmpty
        ⟨"Bad", "not-a-url", "1.0"⟩) (by simp [main_results]),
    (claim_C1_one_entry_per_dependency semUnavailable apiEmpty []
      []).2.2.2.2.2.2.2 ⟨"Bad", "not-a-url", "1.0", false⟩ (by decide)⟩

open DepCheck in
/-- Number of the four summary markers of `check_versions.py` contained
in a status string. -/
def markerScore1 (s : String) : Nat :=
  (pyIn "✅" s).toNat + (pyIn "⚠️" s).toNat + (pyIn "ℹ️" s).toNat
    + (pyIn "🚨" s).toNat

open DepCheck in
/-- Number of the four summary markers of `check_versions2.py` (the
literal mojibake character sequences of lines 402-405) contained in a
status string. -/
def markerScore2 (s : String) : Nat :=
  (pyIn "‚úÖ" s).toNat + (pyIn "‚ö†Ô∏è" s).toNat
    + (pyIn "‚ÑπÔ∏è" s).toNat + (pyIn "üö®" s).toNat

open DepCheck CheckVersions CheckVersions2 in
/-- C10: every status string attached to a report entry contains exactly
one of the four summary marker symbols, and consequently the four
per-status summary counts sum to the total number of entries, in both
scripts. -/
theorem claim_C10_summary_counts_partition :
    ∀ (sem : SemCmp) (api : GithubApi) (deps : List DepConfig)
      (deps2 : List Dep2),
      (∀ r ∈ main_results sem api deps, markerScore1 r.status = 1)
      ∧ count_marker "✅" (main_results sem api deps)
          + count_marker "⚠️" (main_results sem api deps)
          + count_marker "ℹ️" (main_results sem api deps)
          + count_marker "🚨" (main_results sem api deps)
        = (main_results sem api deps).length
      ∧ (∀ r ∈ main_results2 sem api deps2, markerScore2 r.status = 1)
      ∧ count_marker2 "‚úÖ" (main_results2 sem api deps2)
          + count_marker2 "‚ö†Ô∏è" (main_results2 sem api deps2)
          + count_marker2 "‚ÑπÔ∏è" (main_results2 sem api deps2)
          + count_marker2 "üö®" (main_results2 sem api deps2)
        = (main_results2 sem api deps2).length := by
  intro sem api deps deps2
  have hscore1 : ∀ r ∈ main_results sem api deps,
      markerScore1 r.status = 1 := by
    intro r hr
    simp only [main_results, List.mem_map] at hr
    obtain ⟨dc, hdc, rfl⟩ := hr
    have hmem := check_dependency_version_status_mem sem api dc
    simp only [List.mem_cons, List.not_mem_nil, or_false] at hmem
    rcases hmem with h | h | h | h <;> rw [h] <;> decide
  have hscore2 : ∀ r ∈ main_results2 sem api deps2,
      markerScore2 r.status = 1 := by
    intro r hr
    simp only [main_results2, List.mem_map] at hr
    obtain ⟨d, hd, rfl⟩ := hr
    have hmem := check_resolved_dep_status_mem sem api d
    simp only [List.mem_cons, List.not_mem_nil, or_false] at hmem
    rcases hmem with h | h | h | h | h <;> rw [h] <;> decide
  refine ⟨hscore1, ?_, hscore2, ?_⟩
  · exact filter_four_partition _ _ _ _ (main_results sem api deps)
      (fun r hr => hscore1 r hr)
  · exact filter_four_partition _ _ _ _ (main_results2 sem api deps2)
      (fun r hr => hscore2 r hr)

open DepCheck CheckVersions CheckVersions2 in
/-- C10 witness: on a concrete two-entry run (one parse failure, one
update available) the counts partition the report. -/
theorem claim_C10_witness :
    count_marker "✅" (main_results semUnavailable apiRelease
        [⟨"Bad", "not-a-url", "1.0"⟩,
          ⟨"Lib", "https://github.com/acme/lib", "1.0.0"⟩])
      + count_marker "⚠️" (main_results semUnavailable apiRelease
        [⟨"Bad", "not-a-url", "1.0"⟩,
          ⟨"Lib", "https://github.com/acme/lib", "1.0.0"⟩])
      + count_marker "ℹ️" (main_results semUnavailable apiRelease
        [⟨"Bad", "not-a-url", "1.0"⟩,
          ⟨"Lib", "https://github.com/acme/lib", "1.0.0"⟩])
      + count_marker "🚨" (main_results semUnavailable apiRelease
        [⟨"Bad", "not-a-url", "1.0"⟩,
          ⟨"Lib", "https://github.com/acme/lib", "1.0.0"⟩])
    = (main_results semUnavailable apiRelease
        [⟨"Bad", "not-a-url", "1.0"⟩,
          ⟨"Lib", "https://github.com/acme/lib", "1.0.0"⟩]).length :=
  (claim_C10_summary_counts_partition semUnavailable apiRelease
    [⟨"Bad", "not-a-url", "1.0"⟩,
      ⟨"Lib", "https://github.com/acme/lib", "1.0.0"⟩] []).2.1
